import Mathlib

/-!
# Verification of the rebelxDashboard client-import pipeline

Shallow embedding of the bulk client-import pipeline of the
`rebelxDashboard` repository:

* `sanitizeRow`, op building, chunked bulk execution of
  `importClientsBatch` (`server/controllers/clientController.js`);
* the op builder of the CSV path `importClients` (same file,
  identity resolution and `createdAt`/`updatedAt` handling);
* `validateClientData` (`utils/csvValidator.js`);
* `addPaymentMethod` (`server/models/Client.js`);
* the payment tokenization of the CSV import worker `runOne`
  (brand detection, last4, expiry parsing and month clamping).

Modelling conventions:

* JSON/CSV row values are strings; a row object is an association list
  in key insertion order (later duplicate keys overwrite earlier ones,
  as JS object-key assignment does).
* JS `Date` values are abstract instants modelled as `Nat`; the
  wall-clock time of an operation is an explicit `now : Nat` parameter.
* The document store is a list of documents; `updateOne` with
  `upsert: true` updates the first match of the filter
  (`_id` kept immutable) or inserts when there is no match.
  `modifiedCount` counts matched updates that changed the document,
  `upsertedCount` counts upsert inserts, as the MongoDB driver reports.
* Asynchronous existence lookups performed by the validator
  (owner lookup, duplicate probe) are modelled by oracle parameters in
  `ValidationEnv`; `none` for the owner lookup models the lookup
  throwing (the `catch` branch of the source).
-/

namespace RebelX

/-! ## JS string primitives used by the pipeline -/

/-- A JS whitespace character as matched by `\s` / `String.prototype.trim`
(restricted to the characters that occur in this pipeline's data). -/
def isJsSpace (c : Char) : Bool :=
  c = ' ' || c = '\t' || c = '\n' || c = '\r'

/-- `String(v).trim()` on the character-list representation. -/
def jsTrimL (l : List Char) : List Char :=
  (l.dropWhile isJsSpace).reverse.dropWhile isJsSpace |>.reverse

/-- `String(v).trim()`. -/
def jsTrim (s : String) : String :=
  String.mk (jsTrimL s.data)

/-- `'0' ≤ c ≤ '9'`, the `\d` character class. -/
def isDigitChar (c : Char) : Bool := c.isDigit

/-- Numeric value of a decimal digit character. -/
def digitVal (c : Char) : Nat := c.toNat - 48

/-- Value of a list of decimal digit characters (most significant first);
models `parseInt` on a known-digits string. -/
def digitsVal (l : List Char) : Nat :=
  l.foldl (fun a c => 10 * a + digitVal c) 0

/-- `s.replace(/\D+/g, '')`: keep only decimal digits. -/
def digitsOf (s : String) : List Char :=
  s.data.filter isDigitChar

/-- toLowerCase on one char (ASCII, as used for header/status comparisons). -/
def lowerChar (c : Char) : Char := c.toLower

/-- `s.toLowerCase()` (ASCII). -/
def jsLower (s : String) : String :=
  String.mk (s.data.map lowerChar)

/-! ## JS numeric parsing (`Number`, `parseFloat`, `parseInt`) -/

/-- Core of `Number(s)` for a string made of sign-free characters:
an integer part, optionally followed by `.` and a fractional part
(at least one digit overall). Returns `none` for NaN. -/
def jsNumberCore (l : List Char) : Option Rat :=
  let ip := l.takeWhile isDigitChar
  let rest := l.dropWhile isDigitChar
  match rest with
  | [] => if ip = [] then none else some (digitsVal ip)
  | '.' :: fp =>
    if fp.all isDigitChar ∧ (ip ≠ [] ∨ fp ≠ []) then
      some ((digitsVal ip : Rat) + (digitsVal fp : Rat) / ((10 : Rat) ^ fp.length))
    else none
  | _ => none

/-- `Number(s)` on the grammar reachable in this pipeline (after the
source has already stripped every character outside `[0-9.-]`):
empty string is `0`, an optional leading minus sign, digits with at
most one decimal point; anything else is NaN (`none`). -/
def jsNumber (l : List Char) : Option Rat :=
  match l with
  | [] => some 0
  | '-' :: rest => if rest = [] then none else (jsNumberCore rest).map Neg.neg
  | _ => jsNumberCore l

/-- The `n` coercion helper of `sanitizeRow`
(`Number(v.replace(/[^0-9.-]/g, ''))`, `undefined` on NaN). -/
def coerceNumber (v : String) : Option Rat :=
  jsNumber (v.data.filter (fun c => isDigitChar c || c = '.' || c = '-'))

/-- `parseFloat(s)`: parse the longest numeric literal at the start of
the (trimmed) string; `none` models NaN. -/
def jsParseFloat (s : String) : Option Rat :=
  let l := jsTrimL s.data
  let core : List Char → Option Rat := fun l =>
    let ip := l.takeWhile isDigitChar
    let rest := l.dropWhile isDigitChar
    match rest with
    | '.' :: fp =>
      let fpd := fp.takeWhile isDigitChar
      if ip = [] ∧ fpd = [] then none
      else some ((digitsVal ip : Rat) + (digitsVal fpd : Rat) / ((10 : Rat) ^ fpd.length))
    | _ => if ip = [] then none else some (digitsVal ip)
  match l with
  | '-' :: rest => (core rest).map Neg.neg
  | '+' :: rest => core rest
  | _ => core l

/-- `parseInt(s, 10)`: optional sign then the longest digit run at the
start of the trimmed string; `none` models NaN. -/
def jsParseInt (s : String) : Option Int :=
  let l := jsTrimL s.data
  let core : List Char → Option Int := fun l =>
    let d := l.takeWhile isDigitChar
    if d = [] then none else some (digitsVal d)
  match l with
  | '-' :: rest => (core rest).map Neg.neg
  | '+' :: rest => core rest
  | _ => core l

/-! ## Row objects

A JSON/CSV row is an association list of string keys to string values
in key insertion order.  JS object-key assignment with a repeated key
overwrites, so a lookup takes the *last* binding of a key.
-/

/-- A flat input row object. -/
abbrev Row := List (String × String)

/-- Key normalization of `sanitizeRow`:
`String(k).toLowerCase().replace(/[\s_\-]/g, '')`. -/
def normKey (s : String) : String :=
  String.mk ((s.data.map lowerChar).filter (fun c => !(isJsSpace c || c = '_' || c = '-')))

/-- The case/space/underscore/hyphen-insensitive key map of
`sanitizeRow`: `map[norm(k)] = r[k]` for each key in insertion order,
so the last binding of a normalized key wins. -/
def mapLookup (row : Row) (nkey : String) : Option String :=
  ((row.filter (fun kv => normKey kv.fst = nkey)).getLast?).map Prod.snd

/-- `getRaw(...names)`: first alias whose mapped value is present and
non-blank after trimming; the untrimmed value is returned. -/
def getRaw (row : Row) : List String → Option String
  | [] => none
  | n :: ns =>
    match mapLookup row (normKey n) with
    | some v => if jsTrim v ≠ "" then some v else getRaw row ns
    | none => getRaw row ns

/-- The `s` coercion of `sanitizeRow` applied to a `getRaw` result:
`''` for a missing value, else the trimmed string. -/
def sField (row : Row) (names : List String) : String :=
  match getRaw row names with
  | none => ""
  | some v => jsTrim v

/-- The `n(...) ?? d` pattern of `sanitizeRow` for numeric fields
(`Number(undefined)` is NaN, so a missing value also yields the
default). -/
def nField (row : Row) (names : List String) (d : Rat) : Rat :=
  match getRaw row names with
  | none => d
  | some v => (coerceNumber v).getD d

/-! ## `normalizeExpiry` (helper inside `sanitizeRow`) -/

/-- The expiry separator class: a slash or a hyphen. -/
def isExpSep (c : Char) : Bool := c = '/' || c = '-'

/-- `'0'`-padding of a month group: `m.padStart(2, '0')`. -/
def padMonth (l : List Char) : List Char :=
  if l.length = 1 then '0' :: l else l

/-- The loose expiry regex of `normalizeExpiry`: one or two month
digits, an optional slash-or-hyphen separator, then exactly two year
digits, anchored at both ends (greedy with backtracking).  Returns the
month digits and year digits on success. -/
def matchLooseExpiry : List Char → Option (List Char × List Char)
  | [a, b, c] =>
    if isDigitChar a && isDigitChar b && isDigitChar c then some ([a], [b, c]) else none
  | [a, b, c, d] =>
    if isDigitChar a && isDigitChar b && isDigitChar c && isDigitChar d then
      some ([a, b], [c, d])
    else if isDigitChar a && isExpSep b && isDigitChar c && isDigitChar d then
      some ([a], [c, d])
    else none
  | [a, b, c, d, e] =>
    if isDigitChar a && isDigitChar b && isExpSep c && isDigitChar d && isDigitChar e then
      some ([a, b], [d, e])
    else none
  | _ => none

/-- `normalizeExpiry` of `sanitizeRow`: canonicalize expiry inputs to
`MM/YY` when they have 3 or 4 digits or match `M/YY`-like shapes;
otherwise the trimmed input is left as-is. -/
def normalizeExpiry (v : Option String) : String :=
  let raw := match v with | none => "" | some x => jsTrim x
  if raw = "" then "" else
  let digits := digitsOf raw
  if digits.length = 3 then
    String.mk (padMonth (digits.take 1) ++ '/' :: digits.drop 1)
  else if digits.length = 4 then
    String.mk (digits.take 2 ++ '/' :: digits.drop 2)
  else
    match matchLooseExpiry raw.data with
    | some (m, y) => String.mk (padMonth m ++ '/' :: y)
    | none => raw

/-! ## `sanitizeRow` (JSON batch import, `importClientsBatch`) -/

/-- The sanitized document built by `sanitizeRow`: every known field,
coerced to a trimmed string (or number), exactly as the source picks
them.  `idStr` stands for the source's `_id` key. -/
structure SanitizedRow where
  idStr : String
  externalId : String
  name : String
  description : String
  owner : String
  ownedBy : String
  contactStatus : String
  contactType : String
  companyType : String
  phone : String
  email : String
  address : String
  city : String
  state : String
  postalCode : String
  website : String
  facebookPage : String
  industry : String
  forecastedAmount : Rat
  interactionCount : Rat
  createdAtText : String
  profileImage : String
  lastNote : String
  fullName : String
  firstName : String
  lastName : String
  company : String
  folderLink : String
  defaultShippingTerms : String
  defaultPaymentMethod : String
  nameCC : String
  ccNumberText : String
  expirationDateText : String
  securityCodeText : String
  zipCodeText : String
deriving DecidableEq, Repr

/-- `[out.firstName, out.lastName].filter(Boolean).join(' ').trim()`. -/
def joinFirstLast (firstName lastName : String) : String :=
  jsTrim (String.intercalate " "
    ((if firstName ≠ "" then [firstName] else []) ++
     (if lastName ≠ "" then [lastName] else [])))

/-- The field-extraction part of `sanitizeRow`: every known field
picked through its aliases and coerced. -/
def sanitizeBase (raw : Row) : SanitizedRow :=
  {
    idStr := sField raw ["_id", "id", "client_id", "clientid"]
    externalId := sField raw ["externalId", "external_id", "external-id"]
    name := sField raw ["name", "clientname", "customername"]
    description := sField raw ["description", "desc"]
    owner := sField raw ["owner"]
    ownedBy := sField raw ["ownedBy", "owned_by"]
    contactStatus := sField raw ["contactStatus", "contact_status", "status"]
    contactType := sField raw ["contactType", "contact_type", "type"]
    companyType := sField raw ["companyType", "company_type"]
    phone := sField raw ["phone", "telephone", "mobile", "phoneNumber", "phone_number"]
    email := jsLower (sField raw ["email", "e-mail"])
    address := sField raw ["address", "street", "address1"]
    city := sField raw ["city", "town"]
    state := sField raw ["state", "province", "region"]
    postalCode := sField raw ["postalCode", "postal_code", "zip", "zipcode", "zip_code"]
    website := sField raw ["website", "url"]
    facebookPage := sField raw ["facebookPage", "facebook", "fb"]
    industry := sField raw ["industry"]
    forecastedAmount := nField raw ["forecastedAmount", "forecasted_amount", "forecast", "amount"] 0
    interactionCount := nField raw ["interactionCount", "interaction_count"] 0
    createdAtText := sField raw ["createdAtText", "createdAt", "created_at"]
    profileImage := sField raw ["profileImage", "avatar", "image"]
    lastNote := sField raw ["lastNote", "note", "notes"]
    fullName := sField raw ["fullName", "full_name", "fullname"]
    firstName := sField raw ["firstName", "first_name", "firstname", "givenname"]
    lastName := sField raw ["lastName", "last_name", "lastname", "surname", "familyname"]
    company := sField raw ["company", "companyName", "company_name", "business", "organization", "org", "companyname"]
    folderLink := sField raw ["folderLink", "folder", "drive", "gdrive"]
    defaultShippingTerms := sField raw ["defaultShippingTerms"]
    defaultPaymentMethod := sField raw ["defaultPaymentMethod"]
    nameCC := sField raw ["nameCC", "name_on_card"]
    ccNumberText := sField raw ["ccNumberText", "cardNumber", "ccNumber"]
    expirationDateText := normalizeExpiry (getRaw raw
      ["expirationDateText", "expirationDate", "expiration_date", "expDate",
       "exp_date", "ccExp", "expiry", "expiration", "mm/yy", "mm_yy"])
    securityCodeText := sField raw ["securityCodeText", "ccCvv", "cvv", "cvc"]
    zipCodeText := sField raw ["zipCodeText", "billingZip", "billing_zip"]
  }

/-- The derivation chain used when the name is missing:
`fullName || company || [firstName, lastName].filter(Boolean).join(' ').trim() || email || phone || ''`. -/
def deriveNameChain (base : SanitizedRow) : String :=
  if base.fullName ≠ "" then base.fullName
  else if base.company ≠ "" then base.company
  else if joinFirstLast base.firstName base.lastName ≠ "" then
    joinFirstLast base.firstName base.lastName
  else if base.email ≠ "" then base.email
  else if base.phone ≠ "" then base.phone
  else ""

/-- Derive name if missing (first `if (!out.name)` of the source). -/
def withDerivedName (base : SanitizedRow) : SanitizedRow :=
  if base.name = "" then { base with name := deriveNameChain base } else base

/-- Final fallback to avoid skipping: placeholder name if still empty. -/
def withPlaceholder (r : SanitizedRow) : SanitizedRow :=
  if r.name = "" then { r with name := "Unnamed Client" } else r

/-- Default ownership to the requesting user when neither `ownedBy` nor
`owner` was provided. -/
def withOwnership (userId : String) (r : SanitizedRow) : SanitizedRow :=
  if r.ownedBy = "" ∧ r.owner = "" then { r with ownedBy := userId } else r

/-- `sanitizeRow` of `importClientsBatch`: alias-driven field
extraction, name-derivation fallback chain, and owner defaulting to
the requesting user. -/
def sanitizeRow (userId : String) (raw : Row) : SanitizedRow :=
  withOwnership userId (withPlaceholder (withDerivedName (sanitizeBase raw)))

/-! ## Op building and chunked execution of `importClientsBatch` -/

/-- An upsert filter: by `_id` or by `email`. -/
inductive BFilter where
  | byId (id : String)
  | byEmail (email : String)
deriving DecidableEq, Repr

/-- One `updateOne` bulk operation of the JSON batch path: filter,
`$set` document, and the generated id placed in `$setOnInsert` when the
row carried no identifier (`upsert: true` always). -/
structure BatchOp where
  filter : BFilter
  doc : SanitizedRow
  setOnInsertId : Option String
deriving DecidableEq, Repr

/-- Accumulator of the op-building loop of `importClientsBatch`.
`nextGen` indexes the supply of generated ObjectIds. -/
structure BatchBuild where
  ops : List BatchOp
  rowsProcessed : Nat
  skipped : Nat
  nextGen : Nat
deriving Repr

/-- One iteration of the op-building loop: sanitize, skip nameless rows
when validation is skipped (never reachable, `sanitizeRow` always
yields a name), then choose the upsert key: `_id` over `email` over a
freshly generated id. -/
def stepRow (gen : Nat → String) (userId : String) (skipValidation : Bool)
    (st : BatchBuild) (raw : Row) : BatchBuild :=
  let doc := sanitizeRow userId raw
  if doc.name = "" ∧ skipValidation then
    { st with skipped := st.skipped + 1 }
  else if doc.idStr ≠ "" then
    { st with ops := st.ops ++ [⟨BFilter.byId doc.idStr, doc, none⟩],
              rowsProcessed := st.rowsProcessed + 1 }
  else if doc.email ≠ "" then
    { st with ops := st.ops ++ [⟨BFilter.byEmail doc.email, doc, none⟩],
              rowsProcessed := st.rowsProcessed + 1 }
  else
    let g := gen st.nextGen
    { st with ops := st.ops ++ [⟨BFilter.byId g, { doc with idStr := g }, some g⟩],
              rowsProcessed := st.rowsProcessed + 1,
              nextGen := st.nextGen + 1 }

/-- The op-building loop of `importClientsBatch` over all rows. -/
def buildBatchOps (gen : Nat → String) (userId : String) (skipValidation : Bool)
    (rows : List Row) : BatchBuild :=
  rows.foldl (stepRow gen userId skipValidation) ⟨[], 0, 0, 0⟩

/-- Driver counters accumulated across chunks
(`modifiedCount` / `upsertedCount`). -/
structure BulkCounts where
  modifiedCount : Nat
  upsertedCount : Nat
deriving DecidableEq, Repr

/-- The batch-path document store: a list of sanitized documents. -/
abbrev BatchDB := List SanitizedRow

/-- Does a stored document match an upsert filter? -/
def filterMatches (f : BFilter) (d : SanitizedRow) : Bool :=
  match f with
  | .byId i => d.idStr = i
  | .byEmail e => d.email = e

/-- `$set` of a full sanitized document onto a matched document: every
field is overwritten, except the immutable `_id`. -/
def applySet (doc : SanitizedRow) (old : SanitizedRow) : SanitizedRow :=
  { doc with idStr := old.idStr }

/-- `updateOne` with `upsert: true` against the store: update the first
match in place (reporting whether the document actually changed), or
append an inserted document built from the `$set` payload, with `_id`
taken from an id filter when present. -/
def upsertInto (op : BatchOp) : List SanitizedRow → List SanitizedRow × Bool × Bool
  | [] =>
    let inserted :=
      match op.filter with
      | .byId i => { op.doc with idStr := i }
      | .byEmail _ => op.doc
    ([inserted], false, true)
  | d :: ds =>
    if filterMatches op.filter d then
      let d' := applySet op.doc d
      (d' :: ds, if d' = d then false else true, false)
    else
      let (ds', m, u) := upsertInto op ds
      (d :: ds', m, u)

/-- Apply one bulk op to store and counters. -/
def applyBatchOp (st : BatchDB × BulkCounts) (op : BatchOp) : BatchDB × BulkCounts :=
  let (db', modified, upserted) := upsertInto op st.1
  (db', ⟨st.2.modifiedCount + (if modified then 1 else 0),
         st.2.upsertedCount + (if upserted then 1 else 0)⟩)

/-- `execChunk`: a single unordered `bulkWrite` of one chunk, folded
into store and counters (the empty chunk is a no-op). -/
def execChunk (chunk : List BatchOp) (st : BatchDB × BulkCounts) : BatchDB × BulkCounts :=
  chunk.foldl applyBatchOp st

/-- The chunking loop `for (let i = 0; i < ops.length; i += chunkSize)`;
`c` is effectively at least 1 (the source clamps it to at least 500). -/
def execChunks (c : Nat) (ops : List BatchOp) (st : BatchDB × BulkCounts) :
    BatchDB × BulkCounts :=
  match ops with
  | [] => st
  | op :: rest =>
    execChunks c ((op :: rest).drop (max c 1)) (execChunk ((op :: rest).take (max c 1)) st)
termination_by ops.length
decreasing_by simp [List.length_drop]

/-- `chunkSize = Math.max(500, Math.min(parseInt(batchSize || 2000) || 2000, 5000))`;
the empty string models an absent `batchSize`. -/
def chunkSizeOf (batchSize : String) : Nat :=
  let p : Int :=
    match jsParseInt (if batchSize = "" then "2000" else batchSize) with
    | none => 2000
    | some i => if i = 0 then 2000 else i
  (max 500 (min p 5000)).toNat

/-- The response summary of `importClientsBatch`. -/
structure BatchImportSummary where
  totalProcessed : Nat
  created : Nat
  updated : Nat
  skipped : Nat
deriving DecidableEq, Repr

/-- `importClientsBatch`: build ops from the rows, execute them in
chunks, and report `created = upsertedCount`, `updated = modifiedCount`. -/
def importClientsBatch (gen : Nat → String) (userId : String) (skipValidation : Bool)
    (batchSize : String) (rows : List Row) (db : BatchDB) :
    BatchImportSummary × BatchDB :=
  let build := buildBatchOps gen userId skipValidation rows
  let res := execChunks (chunkSizeOf batchSize) build.ops (db, ⟨0, 0⟩)
  (⟨build.rowsProcessed, res.2.upsertedCount, res.2.modifiedCount, build.skipped⟩, res.1)

/-! ## Validation helpers of `csvValidator` (`part_005`)

`isValidEmail`, `isValidPhone` are regex checks, embedded as decidable
matchers for exactly the languages of the source regexes.
`isValidURL` wraps the WHATWG URL parser and `new Date(string)` is the
engine's date parser; both are external library behaviour and are
modelled as oracles in `ValidationEnv`.
-/

/-- The `\w` class: ASCII letter, digit or underscore. -/
def isWordChar (c : Char) : Bool := c.isAlphanum || c = '_'

/-- The separator class `[.-]` of the email regex. -/
def isEmailSep (c : Char) : Bool := c = '.' || c = '-'

/-- No two adjacent separator characters. -/
def noAdjacentSeps : List Char → Bool
  | [] => true
  | [_] => true
  | a :: b :: rest => !(isEmailSep a && isEmailSep b) && noAdjacentSeps (b :: rest)

/-- Matcher for `\w+([.-]?\w+)*` (anchored): nonempty, every character
a word character or a single separator, starting and ending with a word
character, with no two adjacent separators — exactly the language of
the source subpattern. -/
def localSeq (l : List Char) : Bool :=
  match l with
  | [] => false
  | a :: _ =>
    isWordChar a &&
      (match l.getLast? with | some z => isWordChar z | none => false) &&
      l.all (fun c => isWordChar c || isEmailSep c) && noAdjacentSeps l

/-- Matcher for `(\.\w{2,3})+` anchored at the end: one or more groups
of a dot followed by two or three word characters (both group widths
are tried, as regex backtracking does). -/
def tldPlus : List Char → Bool
  | '.' :: a :: b :: rest =>
    if isWordChar a && isWordChar b then
      match rest with
      | [] => true
      | c :: rest2 =>
        tldPlus (c :: rest2) || (isWordChar c && (rest2.isEmpty || tldPlus rest2))
    else false
  | _ => false

/-- Split a character list at its first `@`. -/
def splitFirstAt : List Char → Option (List Char × List Char)
  | [] => none
  | '@' :: rest => some ([], rest)
  | c :: rest => (splitFirstAt rest).map (fun p => (c :: p.1, p.2))

/-- The domain side of the email regex: a `\w+([.-]?\w+)*` part
followed by a `(\.\w{2,3})+` tail (all split points tried). -/
def domTldOk (l : List Char) : Bool :=
  (List.range (l.length + 1)).any (fun i => localSeq (l.take i) && tldPlus (l.drop i))

/-- `isValidEmail`: the source regex
`^\w+([.-]?\w+)*@\w+([.-]?\w+)*(\.\w{2,3})+$`. -/
def isValidEmail (s : String) : Bool :=
  match splitFirstAt s.data with
  | some (loc, dom) => localSeq loc && domTldOk dom
  | none => false

/-- The optional phone separator class `[-\s\.]`. -/
def isPhoneSep (c : Char) : Bool := c = '-' || isJsSpace c || c = '.'

/-- Consume exactly `n` digits or fail. -/
def eatDigits (n : Nat) (l : List Char) : Option (List Char) :=
  if (l.take n).length = n ∧ (l.take n).all isDigitChar then some (l.drop n) else none

/-- Consume at most one character of a class. -/
def eatOpt (p : Char → Bool) (l : List Char) : List Char :=
  match l with
  | c :: rest => if p c then rest else l
  | [] => l

/-- `isValidPhone`: the source regex
`^[+]?[(]?[0-9]\x7b3\x7d[)]?[-\s.]?[0-9]\x7b3\x7d[-\s.]?[0-9]\x7b4,6\x7d$`
(each optional class is disjoint from what follows, so greedy matching
is exact); the empty string is accepted (`phone` is optional). -/
def isValidPhone (s : String) : Bool :=
  if s = "" then true
  else
    let l := eatOpt (· = '(') (eatOpt (· = '+') s.data)
    match eatDigits 3 l with
    | none => false
    | some l =>
      let l := eatOpt isPhoneSep (eatOpt (· = ')') l)
      match eatDigits 3 l with
      | none => false
      | some l =>
        let l := eatOpt isPhoneSep l
        l.all isDigitChar && 4 ≤ l.length && l.length ≤ 6

/-- Two digits with a range constraint (used by the date regexes). -/
def twoDigitIn (lo hi : Nat) (a b : Char) : Option Nat :=
  if isDigitChar a && isDigitChar b then
    let v := 10 * digitVal a + digitVal b
    if lo ≤ v ∧ v ≤ hi then some v else none
  else none

/-- `^(0[1-9]|1[0-2])\/(0[1-9]|[12][0-9]|3[01])\/\d\x7b4\x7d$`:
`MM/DD/YYYY` with the source's range checks; yields (month, day, year). -/
def usFormatMatch (l : List Char) : Option (Nat × Nat × Nat) :=
  match l with
  | [m1, m2, '/', d1, d2, '/', y1, y2, y3, y4] =>
    match twoDigitIn 1 12 m1 m2, twoDigitIn 1 31 d1 d2 with
    | some m, some d =>
      if [y1, y2, y3, y4].all isDigitChar then some (m, d, digitsVal [y1, y2, y3, y4])
      else none
    | _, _ => none
  | _ => none

/-- `^(0[1-9]|[12][0-9]|3[01])\/(0[1-9]|1[0-2])\/\d\x7b4\x7d$`:
`DD/MM/YYYY`; yields (day, month, year). -/
def euFormatMatch (l : List Char) : Option (Nat × Nat × Nat) :=
  match l with
  | [d1, d2, '/', m1, m2, '/', y1, y2, y3, y4] =>
    match twoDigitIn 1 31 d1 d2, twoDigitIn 1 12 m1 m2 with
    | some d, some m =>
      if [y1, y2, y3, y4].all isDigitChar then some (d, m, digitsVal [y1, y2, y3, y4])
      else none
    | _, _ => none
  | _ => none

/-- Abstract instant for `new Date(year, monthIndex, day)` (injective
encoding; such constructor calls are always valid dates). -/
def encodeDate (year monthIndex day : Nat) : Nat :=
  (year * 100 + monthIndex) * 100 + day

/-- External behaviour the validator calls out to: the WHATWG URL
parser (`isValidURL`), the engine's `new Date(string)` parser
(`none` = Invalid Date), the `User.findById` owner probe
(`some true` found / `some false` not found / `none` threw) and the
`Client.findOne` duplicate probe (failures are swallowed by the
source, so a boolean suffices). -/
structure ValidationEnv where
  urlOk : String → Bool
  jsDateParse : String → Option Nat
  ownerLookup : String → Option Bool
  dupExists : String → String → Bool

/-- `isValidDate`: empty is fine; else the engine parser, else either
regex format (whose `new Date(y, m-1, d)` reconstruction is always a
valid date). -/
def isValidDate (env : ValidationEnv) (s : String) : Bool :=
  if s = "" then true
  else if (env.jsDateParse s).isSome then true
  else if (usFormatMatch s.data).isSome then true
  else if (euFormatMatch s.data).isSome then true
  else false

/-- `parseDate`: engine parser first, then the `MM/DD/YYYY` and
`DD/MM/YYYY` regex formats (`new Date(year, month - 1, day)`). -/
def parseDate (env : ValidationEnv) (s : String) : Option Nat :=
  if s = "" then none
  else
    match env.jsDateParse s with
    | some t => some t
    | none =>
      match usFormatMatch s.data with
      | some (m, d, y) => some (encodeDate y (m - 1) d)
      | none =>
        match euFormatMatch s.data with
        | some (d, m, y) => some (encodeDate y (m - 1) d)
        | none => none

/-! ## `validateClientData` -/

/-- The input object handed to `validateClientData` (the mapped CSV
row): every field is an optional string (`none` = absent/undefined). -/
structure ClientData where
  name : Option String := none
  fullName : Option String := none
  email : Option String := none
  externalId : Option String := none
  contactStatus : Option String := none
  phone : Option String := none
  website : Option String := none
  facebookPage : Option String := none
  forecastedAmount : Option String := none
  projectedCloseDate : Option String := none
  createdAt : Option String := none
  interactionCount : Option String := none
  idStr : Option String := none
  owner : Option String := none
  ownedBy : Option String := none
  description : Option String := none
  contactType : Option String := none
  companyType : Option String := none
  address : Option String := none
  city : Option String := none
  state : Option String := none
  postalCode : Option String := none
  industry : Option String := none
  lastNote : Option String := none
  defaultShippingTerms : Option String := none
  defaultPaymentMethod : Option String := none
  folderLink : Option String := none
  profileImage : Option String := none
  createdAtText : Option String := none
  nameCC : Option String := none
  ccNumberText : Option String := none
  expirationDateText : Option String := none
  securityCodeText : Option String := none
  zipCodeText : Option String := none
deriving DecidableEq, Repr

/-- JS truthiness of an optional string value. -/
def truthy (o : Option String) : Bool :=
  match o with
  | none => false
  | some s => s ≠ ""

/-- The value of an optional string (`''` when absent). -/
def optStr (o : Option String) : String := o.getD ""

/-- The warnings `validateClientData` can push, as structured values
carrying their interpolated data (see `ClientWarning.render` for the
exact source texts). -/
inductive ClientWarning where
  | nameFallback
  | nameTruncated
  | invalidEmail
  | unknownContactStatus (original : String)
  | invalidPhone
  | invalidWebsite
  | invalidFacebookPage
  | forecastedAmountNotNumber
  | forecastedAmountNegative
  | invalidProjectedCloseDate
  | invalidCreatedAt
  | invalidInteractionCount
  | emptyClientId
  | invalidOwnerEmail
  | ownerNotFound (email : String)
  | ownerCheckFailed
  | possibleDuplicate (name : String) (email : String)
deriving DecidableEq, Repr

/-- An ASCII apostrophe. -/
def apos : String := String.singleton (Char.ofNat 39)

/-- The exact warning strings of the source. -/
def ClientWarning.render : ClientWarning → String
  | .nameFallback => "Name was missing or too short; a fallback name was assigned"
  | .nameTruncated => "Name exceeded 200 characters and was truncated"
  | .invalidEmail => "Invalid email format"
  | .unknownContactStatus v =>
      "Unknown contact status \"" ++ v ++ "\". Defaulted to " ++ apos ++ "Uncategorized" ++ apos ++ "."
  | .invalidPhone => "Invalid phone number format"
  | .invalidWebsite => "Invalid website URL format"
  | .invalidFacebookPage => "Invalid Facebook page URL format"
  | .forecastedAmountNotNumber => "Forecasted amount could not be parsed as a number"
  | .forecastedAmountNegative => "Forecasted amount is negative; keeping as-is"
  | .invalidProjectedCloseDate => "Invalid projected close date format; value ignored"
  | .invalidCreatedAt => "Invalid createdAt date format; value ignored"
  | .invalidInteractionCount => "Interaction count is not a non-negative integer; value ignored"
  | .emptyClientId => "Provided Client_id was empty after trimming; will let Mongo assign if missing"
  | .invalidOwnerEmail => "Invalid owner email format; assigning value as provided"
  | .ownerNotFound e => "Owner with email " ++ e ++ " not found; assigning anyway"
  | .ownerCheckFailed => "Could not verify owner existence"
  | .possibleDuplicate n e =>
      "Client with name \"" ++ n ++ "\" and email \"" ++ e ++ "\" may already exist"

/-- The `validatedData` object assembled by `validateClientData`. -/
structure ValidatedData where
  name : String := ""
  email : Option String := none
  contactStatus : String := ""
  phone : Option String := none
  website : Option String := none
  facebookPage : Option String := none
  forecastedAmount : Option Rat := none
  projectedCloseDate : Option Nat := none
  createdAt : Option Nat := none
  interactionCount : Option Int := none
  idStr : Option String := none
  ownedBy : Option String := none
  description : Option String := none
  contactType : Option String := none
  companyType : Option String := none
  address : Option String := none
  city : Option String := none
  state : Option String := none
  postalCode : Option String := none
  industry : Option String := none
  fullName : Option String := none
  lastNote : Option String := none
  defaultShippingTerms : Option String := none
  defaultPaymentMethod : Option String := none
  externalId : Option String := none
  owner : Option String := none
  folderLink : Option String := none
  profileImage : Option String := none
  createdAtText : Option String := none
  nameCC : Option String := none
  ccNumberText : Option String := none
  expirationDateText : Option String := none
  securityCodeText : Option String := none
  zipCodeText : Option String := none
deriving DecidableEq, Repr

/-- The fixed `contactStatus` enumeration of the validator. -/
def validStatuses : List String :=
  ["Sampling", "New Prospect", "Uncategorized", "Closed lost",
   "Initial Contact", "Closed won", "Committed", "Consideration"]

/-- Name step: permissive synthesis when the name is missing or shorter
than two characters after trimming (fallback `fullName` then `email`
then `externalId` then a row-numbered placeholder), truncation above
200 characters. -/
def nameStep (c : ClientData) (rowNumber : Nat) : String × List ClientWarning :=
  if !(truthy c.name) || (jsTrim (optStr c.name)).length < 2 then
    let fallback :=
      if truthy c.fullName ∧ jsTrim (optStr c.fullName) ≠ "" then jsTrim (optStr c.fullName)
      else if truthy c.email ∧ jsTrim (optStr c.email) ≠ "" then jsTrim (optStr c.email)
      else if truthy c.externalId ∧ jsTrim (optStr c.externalId) ≠ "" then jsTrim (optStr c.externalId)
      else "Unnamed Client " ++ toString rowNumber
    (String.mk (fallback.data.take 200), [.nameFallback])
  else if (optStr c.name).length > 200 then
    (String.mk ((jsTrim (optStr c.name)).data.take 200), [.nameTruncated])
  else
    (jsTrim (optStr c.name), [])

/-- Email step: optional; shape-invalid emails warn and are dropped,
valid ones are lowercased. -/
def emailStep (c : ClientData) : Option String × List ClientWarning :=
  if truthy c.email then
    if !(isValidEmail (optStr c.email)) then (none, [.invalidEmail])
    else (some (jsLower (optStr c.email)), [])
  else (none, [])

/-- Contact-status step: case-insensitive match against the fixed
enumeration; unknown values downgrade to `Uncategorized` with a
warning, absence defaults silently. -/
def statusStep (c : ClientData) : String × List ClientWarning :=
  if truthy c.contactStatus then
    match validStatuses.find? (fun s => jsLower s = jsLower (optStr c.contactStatus)) with
    | none => ("Uncategorized", [.unknownContactStatus (optStr c.contactStatus)])
    | some s => (s, [])
  else ("Uncategorized", [])

/-- Phone step. -/
def phoneStep (c : ClientData) : Option String × List ClientWarning :=
  if truthy c.phone then
    if !(isValidPhone (optStr c.phone)) then (none, [.invalidPhone])
    else (some (jsTrim (optStr c.phone)), [])
  else (none, [])

/-- Website step. -/
def websiteStep (env : ValidationEnv) (c : ClientData) : Option String × List ClientWarning :=
  if truthy c.website then
    if !(env.urlOk (optStr c.website)) then (none, [.invalidWebsite])
    else (some (jsTrim (optStr c.website)), [])
  else (none, [])

/-- Facebook-page step. -/
def facebookStep (env : ValidationEnv) (c : ClientData) : Option String × List ClientWarning :=
  if truthy c.facebookPage then
    if !(env.urlOk (optStr c.facebookPage)) then (none, [.invalidFacebookPage])
    else (some (jsTrim (optStr c.facebookPage)), [])
  else (none, [])

/-- Forecasted-amount step (`parseFloat`; negative values kept). -/
def forecastStep (c : ClientData) : Option Rat × List ClientWarning :=
  if c.forecastedAmount ≠ none ∧ c.forecastedAmount ≠ some "" then
    match jsParseFloat (optStr c.forecastedAmount) with
    | none => (none, [.forecastedAmountNotNumber])
    | some a =>
      if a < 0 then (some a, [.forecastedAmountNegative]) else (some a, [])
  else (none, [])

/-- Projected-close-date step. -/
def closeDateStep (env : ValidationEnv) (c : ClientData) : Option Nat × List ClientWarning :=
  if truthy c.projectedCloseDate then
    if !(isValidDate env (optStr c.projectedCloseDate)) then (none, [.invalidProjectedCloseDate])
    else (parseDate env (optStr c.projectedCloseDate), [])
  else (none, [])

/-- CreatedAt step (the parsed import-supplied `createdAt` hint). -/
def createdAtStep (env : ValidationEnv) (c : ClientData) : Option Nat × List ClientWarning :=
  if truthy c.createdAt then
    if !(isValidDate env (optStr c.createdAt)) then (none, [.invalidCreatedAt])
    else (parseDate env (optStr c.createdAt), [])
  else (none, [])

/-- Interaction-count step (`parseInt`, non-negative). -/
def interactionStep (c : ClientData) : Option Int × List ClientWarning :=
  if c.interactionCount ≠ none ∧ c.interactionCount ≠ some "" then
    match jsParseInt (optStr c.interactionCount) with
    | none => (none, [.invalidInteractionCount])
    | some i =>
      if i < 0 then (none, [.invalidInteractionCount]) else (some i, [])
  else (none, [])

/-- Client-id step (`_id != null`): empty-after-trim warns, else the
trimmed id is kept. -/
def idStep (c : ClientData) : Option String × List ClientWarning :=
  match c.idStr with
  | none => (none, [])
  | some v =>
    if jsTrim v = "" then (none, [.emptyClientId])
    else (some (jsTrim v), [])

/-- Owner step: first truthy of `owner`/`ownedBy`, trimmed; invalid
shape warns but still assigns; otherwise the owner existence probe
(warning only) and the lowercased email is assigned. -/
def ownerStep (env : ValidationEnv) (c : ClientData) : Option String × List ClientWarning :=
  if truthy c.owner ∨ truthy c.ownedBy then
    let ownerEmail := jsTrim (if truthy c.owner then optStr c.owner else optStr c.ownedBy)
    if !(isValidEmail ownerEmail) then
      (some (jsLower ownerEmail), [.invalidOwnerEmail])
    else
      match env.ownerLookup (jsLower ownerEmail) with
      | some true => (some (jsLower ownerEmail), [])
      | some false => (some (jsLower ownerEmail), [.ownerNotFound ownerEmail])
      | none => (some (jsLower ownerEmail), [.ownerCheckFailed])
  else (none, [])

/-- Passthrough of an optional field: kept trimmed when truthy. -/
def passField (o : Option String) : Option String :=
  if truthy o then some (jsTrim (optStr o)) else none

/-- Duplicate probe step: when both the validated name and email are
truthy and the store probe finds a client with that pair, warn. -/
def dupStep (env : ValidationEnv) (name : String) (email : Option String) :
    List ClientWarning :=
  match email with
  | some e =>
    if name ≠ "" ∧ e ≠ "" ∧ env.dupExists name e then [.possibleDuplicate name e] else []
  | none => []

/-- The result object of `validateClientData`. -/
structure ValidationResult where
  rowNumber : Nat
  isValid : Bool
  data : ValidatedData
  errors : List String
  warnings : List ClientWarning
deriving Repr

/-- `validateClientData`: permissive per-field validation; warnings
accumulate in the source's push order, `errors` is never extended, and
`isValid = (errors.length === 0)`. -/
def validateClientData (env : ValidationEnv) (c : ClientData) (rowNumber : Nat) :
    ValidationResult :=
  let name := (nameStep c rowNumber).1
  let email := (emailStep c).1
  let errors : List String := []
  { rowNumber := rowNumber
    isValid := decide (errors.length = 0)
    data :=
      { name := name, email := email, contactStatus := (statusStep c).1,
        phone := (phoneStep c).1,
        website := (websiteStep env c).1, facebookPage := (facebookStep env c).1,
        forecastedAmount := (forecastStep c).1,
        projectedCloseDate := (closeDateStep env c).1,
        createdAt := (createdAtStep env c).1,
        interactionCount := (interactionStep c).1, idStr := (idStep c).1,
        ownedBy := (ownerStep env c).1,
        description := passField c.description, contactType := passField c.contactType,
        companyType := passField c.companyType, address := passField c.address,
        city := passField c.city, state := passField c.state,
        postalCode := passField c.postalCode, industry := passField c.industry,
        fullName := passField c.fullName, lastNote := passField c.lastNote,
        defaultShippingTerms := passField c.defaultShippingTerms,
        defaultPaymentMethod := passField c.defaultPaymentMethod,
        externalId := passField c.externalId, owner := passField c.owner,
        folderLink := passField c.folderLink, profileImage := passField c.profileImage,
        createdAtText := passField c.createdAtText, nameCC := passField c.nameCC,
        ccNumberText := passField c.ccNumberText,
        expirationDateText := passField c.expirationDateText,
        securityCodeText := passField c.securityCodeText,
        zipCodeText := passField c.zipCodeText }
    errors := errors
    warnings :=
      (nameStep c rowNumber).2 ++ (emailStep c).2 ++ (statusStep c).2 ++
      (phoneStep c).2 ++ (websiteStep env c).2 ++ (facebookStep env c).2 ++
      (forecastStep c).2 ++ (closeDateStep env c).2 ++ (createdAtStep env c).2 ++
      (interactionStep c).2 ++ (idStep c).2 ++ (ownerStep env c).2 ++
      dupStep env name email }

/-! ## Op building of the CSV path (`importClients`)

`importClients` builds, per validated row, either an `updateOne` with
`upsert: true` (when the row carries an `_id` or an `email`) or an
`insertOne`.  The `$set` payload is the validated data minus the
excluded keys (`_id`, `createdAt`, `updatedAt`, ...); `createdAt` goes
through an insert-only `$setOnInsert` clause, honouring the parsed CSV
hint.  The `Client` schema is declared with `timestamps: true`, so the
store (Mongoose `bulkWrite`) stamps `updatedAt` with the operation's
wall-clock time on every write; that store behaviour is part of the
`applyCsvOp` semantics below with `ts` the operation instant.
-/

/-- Drop the `EXCLUDE_KEYS` of the `$set` payload that exist on
validated data (`_id` and `createdAt`; the freshly assigned
`updatedAt` is also excluded, and the remaining excluded keys never
occur on validated rows). -/
def stripExcluded (d : ValidatedData) : ValidatedData :=
  { d with idStr := none, createdAt := none }

/-- A bulk operation of the CSV path. -/
inductive CsvOp where
  | updateOne (filter : BFilter) (set : ValidatedData) (createdOnInsert : Nat) (ts : Nat)
  | insertOne (doc : ValidatedData) (createdAt : Nat) (updatedAt : Nat)
deriving DecidableEq, Repr

/-- Identity resolution and op construction for one validated row at
instant `now`: `_id` over `email` over a plain insert. -/
def buildCsvOp (data : ValidatedData) (now : Nat) : CsvOp :=
  let setPayload := stripExcluded data
  let createdOnInsert := match data.createdAt with | some t => t | none => now
  if truthy data.idStr then
    .updateOne (.byId (optStr data.idStr)) setPayload createdOnInsert now
  else if truthy data.email then
    .updateOne (.byEmail (optStr data.email)) setPayload createdOnInsert now
  else
    .insertOne setPayload createdOnInsert now

/-- A stored client document of the CSV-path store model. -/
structure StoredClient where
  idStr : String
  doc : ValidatedData
  createdAt : Nat
  updatedAt : Nat
deriving DecidableEq, Repr

/-- Filter matching against the CSV-path store. -/
def csvMatches (f : BFilter) (d : StoredClient) : Bool :=
  match f with
  | .byId i => d.idStr = i
  | .byEmail e => d.doc.email = some e

/-- `updateOne`+upsert against the store: the first match gets the
`$set` payload and a fresh `updatedAt` (schema timestamps) while its
`createdAt` is untouched; with no match, a document is inserted with
`createdAt` from the insert-only clause (`genId` is the
store-assigned id when the filter carries none). -/
def csvUpsertInto (genId : String) (f : BFilter) (set : ValidatedData)
    (createdOnInsert ts : Nat) : List StoredClient → List StoredClient
  | [] =>
    [{ idStr := match f with | .byId i => i | .byEmail _ => genId,
       doc := set, createdAt := createdOnInsert, updatedAt := ts }]
  | d :: ds =>
    if csvMatches f d then { d with doc := set, updatedAt := ts } :: ds
    else d :: csvUpsertInto genId f set createdOnInsert ts ds

/-- Apply one CSV-path op to the store. -/
def applyCsvOp (genId : String) (db : List StoredClient) : CsvOp → List StoredClient
  | .updateOne f set createdOnInsert ts => csvUpsertInto genId f set createdOnInsert ts db
  | .insertOne doc ca ua => db ++ [{ idStr := genId, doc := doc, createdAt := ca, updatedAt := ua }]

/-! ## `addPaymentMethod` (`server/models/Client.js`) -/

/-- A tokenized payment method entry as stored on a client record. -/
structure PaymentEntry where
  id : String
  brand : String
  last4 : String
  expMonth : Nat
  expYear : Nat
  nameOnCard : Option String
  billingZip : Option String
  isDefault : Bool
  createdAt : Nat
deriving DecidableEq, Repr

/-- The argument object of `addPaymentMethod`; `cardNumber`/`cvv` model
the raw fields the security guard rejects when truthy. -/
structure PaymentMethodInput where
  id : String
  brand : String
  last4 : String
  expMonth : Nat
  expYear : Nat
  nameOnCard : Option String := none
  billingZip : Option String := none
  isDefault : Bool := false
  cardNumber : Option String := none
  cvv : Option String := none
deriving DecidableEq, Repr

/-- The entry pushed by `addPaymentMethod`. -/
def mkEntry (pmd : PaymentMethodInput) (isDef : Bool) (now : Nat) : PaymentEntry :=
  { id := pmd.id, brand := pmd.brand, last4 := pmd.last4,
    expMonth := pmd.expMonth, expYear := pmd.expYear,
    nameOnCard := pmd.nameOnCard, billingZip := pmd.billingZip,
    isDefault := isDef, createdAt := now }

/-- `addPaymentMethod`: reject truthy raw card fields; initialize the
payment sub-object when absent; when the list is empty or the new
method is marked default, flip every pre-existing method to
non-default and push the new one as default, else push it with its own
(non-default) flag.  Returns the new `paymentMethod.paymentMethods`
list. -/
def addPaymentMethod (now : Nat) (paymentMethods : Option (List PaymentEntry))
    (pmd : PaymentMethodInput) : Except String (List PaymentEntry) :=
  if truthy pmd.cardNumber || truthy pmd.cvv then
    .error "Cannot store raw card data. Please use tokenized payment information."
  else
    let cur := paymentMethods.getD []
    if cur.length = 0 || pmd.isDefault then
      .ok ((cur.map (fun pm => { pm with isDefault := false })) ++ [mkEntry pmd true now])
    else
      .ok (cur ++ [mkEntry pmd pmd.isDefault now])

/-! ## Payment tokenization of the CSV import worker (`runOne`) -/

/-- Matcher for the Visa pattern `^4\d\x7b12,18\x7d$`. -/
def visaMatch (l : List Char) : Bool :=
  match l with
  | '4' :: rest => rest.all isDigitChar && 12 ≤ rest.length && rest.length ≤ 18
  | _ => false

/-- The 4-character group of the 2-series Mastercard alternative
(`2[2-9]\d\x7b2\x7d | [3-6]\d\x7b3\x7d | 7[01]\d\x7b2\x7d | 720\d`),
applied to the four characters after the leading `2`. -/
def mc2Group (b c d e : Char) : Bool :=
  (b = '2' && decide ('2' ≤ c) && decide (c ≤ '9') && isDigitChar d && isDigitChar e) ||
  (decide ('3' ≤ b) && decide (b ≤ '6') && isDigitChar c && isDigitChar d && isDigitChar e) ||
  (b = '7' && (c = '0' || c = '1') && isDigitChar d && isDigitChar e) ||
  (b = '7' && c = '2' && d = '0' && isDigitChar e)

/-- Matcher for the Mastercard pattern
`^(5[1-5]\d\x7b4\x7d|2(...))\d\x7b10\x7d$` (16 digits for the 5-series
alternative, 15 characters for the 2-series one, exactly as the
source regex is written). -/
def mcMatch (l : List Char) : Bool :=
  match l with
  | '5' :: b :: rest =>
    decide ('1' ≤ b) && decide (b ≤ '5') && rest.length = 14 && rest.all isDigitChar
  | '2' :: b :: c :: d :: e :: rest =>
    mc2Group b c d e && rest.length = 10 && rest.all isDigitChar
  | _ => false

/-- Matcher for the Amex pattern `^3[47]\d\x7b13\x7d$`. -/
def amexMatch (l : List Char) : Bool :=
  match l with
  | '3' :: b :: rest => (b = '4' || b = '7') && rest.length = 13 && rest.all isDigitChar
  | _ => false

/-- The 3-character group of the 622-series Discover alternative
(`12[6-9] | 1[3-9]\d | [2-8]\d\x7b2\x7d | 9([01]\d|2[0-5])`). -/
def disc622Group (a b c : Char) : Bool :=
  (a = '1' && b = '2' && decide ('6' ≤ c) && decide (c ≤ '9')) ||
  (a = '1' && decide ('3' ≤ b) && decide (b ≤ '9') && isDigitChar c) ||
  (decide ('2' ≤ a) && decide (a ≤ '8') && isDigitChar b && isDigitChar c) ||
  (a = '9' && ((b = '0' || b = '1') && isDigitChar c || b = '2' && decide ('0' ≤ c) && decide (c ≤ '5')))

/-- Matcher for the Discover pattern
`^(6011\d\x7b12\x7d|65\d\x7b14\x7d|64[4-9]\d\x7b13\x7d|622(...)\d\x7b10\x7d)$`. -/
def discMatch (l : List Char) : Bool :=
  match l with
  | '6' :: '0' :: '1' :: '1' :: rest => rest.length = 12 && rest.all isDigitChar
  | '6' :: '5' :: rest => rest.length = 14 && rest.all isDigitChar
  | '6' :: '4' :: b :: rest =>
    decide ('4' ≤ b) && decide (b ≤ '9') && rest.length = 13 && rest.all isDigitChar
  | '6' :: '2' :: '2' :: a :: b :: c :: rest =>
    disc622Group a b c && rest.length = 10 && rest.all isDigitChar
  | _ => false

/-- `detectBrand`: IIN-range pattern matching with the generic
`"card"` fallback. -/
def detectBrand (pan : List Char) : String :=
  if visaMatch pan then "visa"
  else if mcMatch pan then "mastercard"
  else if amexMatch pan then "amex"
  else if discMatch pan then "discover"
  else "card"

/-- The `\d\x7b2,4\x7d$` year group of the expiry regex. -/
def yearGroupOk (rest : List Char) : Bool :=
  2 ≤ rest.length && rest.length ≤ 4 && rest.all isDigitChar

/-- The expiry regex of `runOne`, `^(\d\x7b1,2\x7d)[\/\-](\d\x7b2,4\x7d)$`:
one or two month digits, a mandatory slash-or-hyphen separator, then
two to four year digits; yields the parsed month and the year digits. -/
def parseExpiry (l : List Char) : Option (Nat × List Char) :=
  match l with
  | a :: b :: rest =>
    if isDigitChar a then
      if isExpSep b then
        if yearGroupOk rest then some (digitVal a, rest) else none
      else if isDigitChar b then
        match rest with
        | c :: rest2 =>
          if isExpSep c ∧ yearGroupOk rest2 then
            some (10 * digitVal a + digitVal b, rest2)
          else none
        | [] => none
      else none
    else none
  | _ => none

/-- The tokenized entry built by `runOne` (display-safe fields only). -/
structure TokenizedCard where
  brand : String
  last4 : String
  expMonth : Nat
  expYear : Nat
deriving DecidableEq, Repr

/-- The per-row tokenization of `runOne`: strip non-digits from the
card number, silently skip digit counts outside 13..19 (`continue`),
derive brand and the final four digits, parse the expiry (skipping on
mismatch), interpret two-digit years as `2000 + YY`, and clamp the
month into 1..12. -/
def tokenizeCard (ccNumber ccExp : String) : Option TokenizedCard :=
  let digits := digitsOf ccNumber
  if digits = [] ∨ digits.length < 13 ∨ digits.length > 19 then none
  else
    let last4 := String.mk (digits.drop (digits.length - 4))
    let brand := detectBrand digits
    match parseExpiry (jsTrim ccExp).data with
    | none => none
    | some (mm, yy) =>
      let yyyy := if yy.length = 2 then 2000 + digitsVal yy else digitsVal yy
      some { brand := brand, last4 := last4,
             expMonth := min 12 (max 1 mm), expYear := yyyy }

/-! ## Derived predicates and concrete fixtures used by the theorems -/

/-- Is a warning the unknown-contact-status warning (for any value)? -/
def isUnknownStatusWarning : ClientWarning → Bool
  | .unknownContactStatus _ => true
  | _ => false

/-- Number of entries flagged default in a payment-method list. -/
def countDefaults (l : List PaymentEntry) : Nat :=
  l.countP (fun pm => pm.isDefault)

/-- A deterministic supply of generated ObjectIds (each index yields a
distinct string). -/
def genDemo : Nat → String := fun k => "gen" ++ toString k

/-- A validation environment whose oracles all succeed benignly. -/
def envDemo : ValidationEnv :=
  { urlOk := fun _ => true, jsDateParse := fun _ => none,
    ownerLookup := fun _ => some true, dupExists := fun _ _ => false }

/-- An imported row carrying a raw card number and a CVV. -/
def rawCardRow : Row :=
  [("name", "Acme LLC"), ("ccNumber", "4242424242424242"),
   ("cvv", "123"), ("ccExp", "09/26")]

/-- An identifierless JSON row (no id column, no email column). -/
def noIdRow : Row := [("name", "No Id Client")]

/-- An identifierless validated CSV draft (no `_id`, no `email`). -/
def noIdData : ValidatedData := { name := "No Id Client" }

/-- A validated CSV draft carrying an email and a parsed `createdAt`
hint. -/
def hintedData : ValidatedData :=
  { name := "Hinted", email := some "hint@x.com", createdAt := some 55 }

/-- A mapped row whose `contactStatus` is not in the enumeration. -/
def interestedRow : ClientData :=
  { name := some "Bob Co", contactStatus := some "Interested" }

/-- A tokenized visa input marked default (as every call site does). -/
def visaInput : PaymentMethodInput :=
  { id := "m1", brand := "visa", last4 := "4242", expMonth := 9,
    expYear := 2026, isDefault := true }

/-- A pre-existing default payment entry. -/
def amexEntry : PaymentEntry :=
  { id := "m0", brand := "amex", last4 := "0005", expMonth := 1, expYear := 2027,
    nameOnCard := none, billingZip := none, isDefault := true, createdAt := 3 }

/-- A stored client matched by email, created at instant 7. -/
def oldStored : StoredClient :=
  { idStr := "d1", doc := { name := "Old", email := some "hint@x.com" },
    createdAt := 7, updatedAt := 8 }

/-- A mapped CSV row carrying compact plain-text payment columns. -/
def rawCardData : ClientData :=
  { name := some "Acme LLC", ccNumberText := some "4242424242424242",
    securityCodeText := some "123" }

/-! # Helper lemmas -/

theorem withOwnership_name (u : String) (r : SanitizedRow) :
    (withOwnership u r).name = r.name := by
  unfold withOwnership; split <;> rfl

theorem withPlaceholder_name_ne (r : SanitizedRow) : (withPlaceholder r).name ≠ "" := by
  unfold withPlaceholder
  split
  · simp
  · next h => exact h

theorem sanitizeRow_name_ne (u : String) (raw : Row) : (sanitizeRow u raw).name ≠ "" := by
  unfold sanitizeRow
  rw [withOwnership_name]
  exact withPlaceholder_name_ne _

theorem execChunks_foldl_aux (c : Nat) :
    ∀ (n : Nat) (ops : List BatchOp) (st : BatchDB × BulkCounts),
      ops.length ≤ n → execChunks c ops st = ops.foldl applyBatchOp st := by
  intro n
  induction n with
  | zero =>
    intro ops st h
    have : ops = [] := List.length_eq_zero.mp (Nat.le_zero.mp h)
    subst this
    rw [execChunks]
    rfl
  | succ n ih =>
    intro ops st h
    cases ops with
    | nil => rw [execChunks]; rfl
    | cons op rest =>
      rw [execChunks]
      have h2 : ((op :: rest).drop (max c 1)).length ≤ n := by
        simp only [List.length_drop, List.length_cons] at *
        omega
      rw [ih _ _ h2, execChunk, ← List.foldl_append, List.take_append_drop]

theorem execChunks_foldl (c : Nat) (ops : List BatchOp) (st : BatchDB × BulkCounts) :
    execChunks c ops st = ops.foldl applyBatchOp st :=
  execChunks_foldl_aux c ops.length ops st le_rfl

/-! # Claims -/

/-- C6: hard validation failures never fire in practice: for every
input row, `validateClientData` returns an empty `errors` list and
`isValid = true`, so the validator itself never excludes a row. -/
theorem clientValidator_neverExcludes (env : ValidationEnv) (c : ClientData) (rn : Nat) :
    (validateClientData env c rn).errors = [] ∧
      (validateClientData env c rn).isValid = true :=
  ⟨rfl, rfl⟩

/-- C9: for a fixed row list and initial store, the aggregate
`created` and `updated` counts of the JSON batch import are the same
for `batchSize = 2000` and `batchSize = 500` (chunking transparency). -/
theorem batchImport_chunkingTransparent (gen : Nat → String) (userId : String)
    (skipValidation : Bool) (rows : List Row) (db : BatchDB) :
    (importClientsBatch gen userId skipValidation "2000" rows db).1.created =
      (importClientsBatch gen userId skipValidation "500" rows db).1.created ∧
    (importClientsBatch gen userId skipValidation "2000" rows db).1.updated =
      (importClientsBatch gen userId skipValidation "500" rows db).1.updated := by
  constructor <;> simp only [importClientsBatch, execChunks_foldl]

theorem tokenizeCard_some_eq (cc exp : String) (t : TokenizedCard)
    (h : tokenizeCard cc exp = some t) :
    ∃ mm yy, parseExpiry (jsTrim exp).data = some (mm, yy) ∧
      t = { brand := detectBrand (digitsOf cc),
            last4 := String.mk ((digitsOf cc).drop ((digitsOf cc).length - 4)),
            expMonth := min 12 (max 1 mm),
            expYear := if yy.length = 2 then 2000 + digitsVal yy else digitsVal yy } := by
  simp only [tokenizeCard] at h
  by_cases h1 : digitsOf cc = [] ∨ (digitsOf cc).length < 13 ∨ (digitsOf cc).length > 19
  · rw [if_pos h1] at h; cases h
  · rw [if_neg h1] at h
    rcases hp : parseExpiry (jsTrim exp).data with _ | ⟨mm, yy⟩
    · rw [hp] at h; cases h
    · rw [hp] at h
      injection h with h
      exact ⟨mm, yy, rfl, h.symm⟩

theorem detectBrand_mem (pan : List Char) :
    detectBrand pan ∈ ["visa", "mastercard", "amex", "discover", "card"] := by
  unfold detectBrand
  split_ifs <;> simp

/-- C8: payment tokenization derives the brand by IIN-range pattern
matching with the generic `"card"` fallback, takes the final four
digits as `last4`, reads a two-digit expiry year as `2000 + YY`, and
silently skips card numbers whose digit count is outside 13..19; in
particular the 4242-Visa scenario yields
`{brand := "visa", last4 := "4242", expMonth := 9, expYear := 2026}`. -/
theorem tokenization_brandLast4Expiry :
    tokenizeCard "4242424242424242" "09/26" =
      some { brand := "visa", last4 := "4242", expMonth := 9, expYear := 2026 } ∧
    (∀ cc exp, ((digitsOf cc).length < 13 ∨ 19 < (digitsOf cc).length) →
      tokenizeCard cc exp = none) ∧
    (∀ cc exp t, tokenizeCard cc exp = some t →
      t.brand = detectBrand (digitsOf cc) ∧
      t.last4 = String.mk ((digitsOf cc).drop ((digitsOf cc).length - 4)) ∧
      t.brand ∈ ["visa", "mastercard", "amex", "discover", "card"]) ∧
    (∀ cc exp t mm yy, tokenizeCard cc exp = some t →
      parseExpiry (jsTrim exp).data = some (mm, yy) → yy.length = 2 →
      t.expYear = 2000 + digitsVal yy) := by
  refine ⟨by decide, ?_, ?_, ?_⟩
  · intro cc exp h
    simp only [tokenizeCard]
    rw [if_pos (Or.inr h)]
  · intro cc exp t h
    obtain ⟨mm, yy, _, ht⟩ := tokenizeCard_some_eq cc exp t h
    subst ht
    exact ⟨rfl, rfl, detectBrand_mem _⟩
  · intro cc exp t mm yy h hp hyy
    obtain ⟨mm', yy', hp', ht⟩ := tokenizeCard_some_eq cc exp t h
    rw [hp] at hp'
    injection hp' with hp'
    obtain ⟨rfl, rfl⟩ := Prod.mk.injEq .. ▸ hp'
    subst ht
    simp [hyy]

/-- C8 witness: the skip branch fires on a 4-digit number and the
4242-Visa scenario evaluates as stated. -/
theorem tokenization_brandLast4Expiry_witness :
    tokenizeCard "4242" "09/26" = none ∧
    tokenizeCard "4242424242424242" "09/26" =
      some { brand := "visa", last4 := "4242", expMonth := 9, expYear := 2026 } :=
  ⟨tokenization_brandLast4Expiry.2.1 "4242" "09/26" (Or.inl (by decide)),
   tokenization_brandLast4Expiry.1⟩

/-- C10: for every expiry string the tokenizer accepts, the derived
month is clamped into 1..12 as `min 12 (max 1 mm)` instead of the row
being rejected; `"13/26"` yields month 12 and `"0/26"` yields
month 1. -/
theorem tokenization_monthClamped :
    (∀ cc exp t mm yy, tokenizeCard cc exp = some t →
      parseExpiry (jsTrim exp).data = some (mm, yy) →
      t.expMonth = min 12 (max 1 mm)) ∧
    tokenizeCard "4242424242424242" "13/26" =
      some { brand := "visa", last4 := "4242", expMonth := 12, expYear := 2026 } ∧
    tokenizeCard "4242424242424242" "0/26" =
      some { brand := "visa", last4 := "4242", expMonth := 1, expYear := 2026 } := by
  refine ⟨?_, by decide, by decide⟩
  intro cc exp t mm yy h hp
  obtain ⟨mm', yy', hp', ht⟩ := tokenizeCard_some_eq cc exp t h
  rw [hp] at hp'
  injection hp' with hp'
  obtain ⟨rfl, rfl⟩ := Prod.mk.injEq .. ▸ hp'
  subst ht
  rfl

/-- C10 witness: the clamp evaluated at the out-of-range month 13. -/
theorem tokenization_monthClamped_witness :
    ({ brand := "visa", last4 := "4242", expMonth := 12, expYear := 2026 } :
      TokenizedCard).expMonth = min 12 (max 1 13) :=
  tokenization_monthClamped.1 "4242424242424242" "13/26" _ 13 ['2', '6']
    (by decide) (by decide)

/-- C7: attaching a tokenized payment method (which every call site
marks default) flips all pre-existing methods to non-default, appends
the new method as the default, and leaves exactly one default entry;
on an empty list the first attached entry is automatically the
default. -/
theorem paymentAttach_singleDefault (now : Nat) (pms : Option (List PaymentEntry))
    (pmd : PaymentMethodInput) (hcn : pmd.cardNumber = none) (hcv : pmd.cvv = none) :
    (pmd.isDefault = true →
      addPaymentMethod now pms pmd =
        .ok ((pms.getD []).map (fun pm => { pm with isDefault := false }) ++
          [mkEntry pmd true now]) ∧
      countDefaults ((pms.getD []).map (fun pm => { pm with isDefault := false }) ++
          [mkEntry pmd true now]) = 1 ∧
      (mkEntry pmd true now).isDefault = true) ∧
    (pms.getD [] = [] → addPaymentMethod now pms pmd = .ok [mkEntry pmd true now]) := by
  constructor
  · intro hd
    refine ⟨?_, ?_, rfl⟩
    · unfold addPaymentMethod
      rw [if_neg (by simp [truthy, hcn, hcv])]
      rw [if_pos (by simp [hd])]
    · simp [countDefaults, List.countP_append, List.countP_map, Function.comp, mkEntry]
  · intro he
    unfold addPaymentMethod
    rw [if_neg (by simp [truthy, hcn, hcv])]
    rw [he]
    rfl

/-- C7 witness: attaching a default-marked visa method on a record
holding one amex default demotes the amex entry and leaves a single
default. -/
theorem paymentAttach_singleDefault_witness :
    addPaymentMethod 10 (some [amexEntry]) visaInput =
      .ok (((some [amexEntry] : Option (List PaymentEntry)).getD []).map
          (fun pm => { pm with isDefault := false }) ++ [mkEntry visaInput true 10]) ∧
    countDefaults (((some [amexEntry] : Option (List PaymentEntry)).getD []).map
        (fun pm => { pm with isDefault := false }) ++ [mkEntry visaInput true 10]) = 1 :=
  ⟨((paymentAttach_singleDefault 10 (some [amexEntry]) visaInput rfl rfl).1 rfl).1,
   ((paymentAttach_singleDefault 10 (some [amexEntry]) visaInput rfl rfl).1 rfl).2.1⟩

theorem nameStep_noStatus (c : ClientData) (rn : Nat) :
    ∀ w ∈ (nameStep c rn).2, isUnknownStatusWarning w = false := by
  intro w hw
  unfold nameStep at hw
  split at hw
  · simp_all [isUnknownStatusWarning]
  · split at hw <;> simp_all [isUnknownStatusWarning]

theorem emailStep_noStatus (c : ClientData) :
    ∀ w ∈ (emailStep c).2, isUnknownStatusWarning w = false := by
  intro w hw
  unfold emailStep at hw
  split at hw
  · split at hw <;> simp_all [isUnknownStatusWarning]
  · simp_all

theorem phoneStep_noStatus (c : ClientData) :
    ∀ w ∈ (phoneStep c).2, isUnknownStatusWarning w = false := by
  intro w hw
  unfold phoneStep at hw
  split at hw
  · split at hw <;> simp_all [isUnknownStatusWarning]
  · simp_all

theorem websiteStep_noStatus (env : ValidationEnv) (c : ClientData) :
    ∀ w ∈ (websiteStep env c).2, isUnknownStatusWarning w = false := by
  intro w hw
  unfold websiteStep at hw
  split at hw
  · split at hw <;> simp_all [isUnknownStatusWarning]
  · simp_all

theorem facebookStep_noStatus (env : ValidationEnv) (c : ClientData) :
    ∀ w ∈ (facebookStep env c).2, isUnknownStatusWarning w = false := by
  intro w hw
  unfold facebookStep at hw
  split at hw
  · split at hw <;> simp_all [isUnknownStatusWarning]
  · simp_all

theorem forecastStep_noStatus (c : ClientData) :
    ∀ w ∈ (forecastStep c).2, isUnknownStatusWarning w = false := by
  intro w hw
  unfold forecastStep at hw
  split at hw
  · split at hw
    · simp_all [isUnknownStatusWarning]
    · split at hw <;> simp_all [isUnknownStatusWarning]
  · simp_all

theorem closeDateStep_noStatus (env : ValidationEnv) (c : ClientData) :
    ∀ w ∈ (closeDateStep env c).2, isUnknownStatusWarning w = false := by
  intro w hw
  unfold closeDateStep at hw
  split at hw
  · split at hw <;> simp_all [isUnknownStatusWarning]
  · simp_all

theorem createdAtStep_noStatus (env : ValidationEnv) (c : ClientData) :
    ∀ w ∈ (createdAtStep env c).2, isUnknownStatusWarning w = false := by
  intro w hw
  unfold createdAtStep at hw
  split at hw
  · split at hw <;> simp_all [isUnknownStatusWarning]
  · simp_all

theorem interactionStep_noStatus (c : ClientData) :
    ∀ w ∈ (interactionStep c).2, isUnknownStatusWarning w = false := by
  intro w hw
  unfold interactionStep at hw
  split at hw
  · split at hw
    · simp_all [isUnknownStatusWarning]
    · split at hw <;> simp_all [isUnknownStatusWarning]
  · simp_all

theorem idStep_noStatus (c : ClientData) :
    ∀ w ∈ (idStep c).2, isUnknownStatusWarning w = false := by
  intro w hw
  unfold idStep at hw
  split at hw
  · simp_all
  · split at hw <;> simp_all [isUnknownStatusWarning]

theorem ownerStep_noStatus (env : ValidationEnv) (c : ClientData) :
    ∀ w ∈ (ownerStep env c).2, isUnknownStatusWarning w = false := by
  intro w hw
  unfold ownerStep at hw
  dsimp only at hw
  repeat' split at hw
  all_goals simp_all [isUnknownStatusWarning]

theorem dupStep_noStatus (env : ValidationEnv) (name : String) (email : Option String) :
    ∀ w ∈ dupStep env name email, isUnknownStatusWarning w = false := by
  intro w hw
  unfold dupStep at hw
  split at hw
  · split at hw <;> simp_all [isUnknownStatusWarning]
  · simp_all

theorem countP_unknown_zero {l : List ClientWarning}
    (h : ∀ w ∈ l, isUnknownStatusWarning w = false) :
    l.countP isUnknownStatusWarning = 0 :=
  List.countP_eq_zero.mpr (by simpa using h)

theorem count_unknown_zero {l : List ClientWarning} (v : String)
    (h : ∀ w ∈ l, isUnknownStatusWarning w = false) :
    l.count (ClientWarning.unknownContactStatus v) = 0 :=
  List.count_eq_zero.mpr (fun hm => by
    have := h _ hm
    simp [isUnknownStatusWarning] at this)

theorem statusStep_unknown (c : ClientData) (v : String) (h1 : c.contactStatus = some v)
    (h2 : v ≠ "") (h3 : validStatuses.find? (fun s => jsLower s = jsLower v) = none) :
    statusStep c = ("Uncategorized", [ClientWarning.unknownContactStatus v]) := by
  unfold statusStep
  rw [h1]
  rw [if_pos (by simp [truthy, h2])]
  simp [optStr, h3]

theorem validateClientData_warnings (env : ValidationEnv) (c : ClientData) (rn : Nat) :
    (validateClientData env c rn).warnings =
      (nameStep c rn).2 ++ (emailStep c).2 ++ (statusStep c).2 ++
      (phoneStep c).2 ++ (websiteStep env c).2 ++ (facebookStep env c).2 ++
      (forecastStep c).2 ++ (closeDateStep env c).2 ++ (createdAtStep env c).2 ++
      (interactionStep c).2 ++ (idStep c).2 ++ (ownerStep env c).2 ++
      dupStep env (nameStep c rn).1 (emailStep c).1 := rfl

/-- C5: a normalized draft whose `contactStatus` is not
(case-insensitively) in the fixed enumeration is not rejected: the
validated `contactStatus` is the default `"Uncategorized"`, no error is
recorded, and exactly one warning — the one carrying the original
value — is emitted. -/
theorem validator_unknownStatusDowngrades (env : ValidationEnv) (c : ClientData)
    (rn : Nat) (v : String) (h1 : c.contactStatus = some v) (h2 : v ≠ "")
    (h3 : validStatuses.find? (fun s => jsLower s = jsLower v) = none) :
    (validateClientData env c rn).data.contactStatus = "Uncategorized" ∧
    (validateClientData env c rn).errors = [] ∧
    (validateClientData env c rn).warnings.countP isUnknownStatusWarning = 1 ∧
    (validateClientData env c rn).warnings.count
      (ClientWarning.unknownContactStatus v) = 1 := by
  have hs := statusStep_unknown c v h1 h2 h3
  refine ⟨?_, rfl, ?_, ?_⟩
  · show (statusStep c).1 = "Uncategorized"
    rw [hs]
  · rw [validateClientData_warnings, hs]
    simp [List.countP_append,
      countP_unknown_zero (nameStep_noStatus c rn),
      countP_unknown_zero (emailStep_noStatus c),
      countP_unknown_zero (phoneStep_noStatus c),
      countP_unknown_zero (websiteStep_noStatus env c),
      countP_unknown_zero (facebookStep_noStatus env c),
      countP_unknown_zero (forecastStep_noStatus c),
      countP_unknown_zero (closeDateStep_noStatus env c),
      countP_unknown_zero (createdAtStep_noStatus env c),
      countP_unknown_zero (interactionStep_noStatus c),
      countP_unknown_zero (idStep_noStatus c),
      countP_unknown_zero (ownerStep_noStatus env c),
      countP_unknown_zero (dupStep_noStatus env (nameStep c rn).1 (emailStep c).1),
      List.countP_cons, isUnknownStatusWarning]
  · rw [validateClientData_warnings, hs]
    simp [List.count_append,
      count_unknown_zero v (nameStep_noStatus c rn),
      count_unknown_zero v (emailStep_noStatus c),
      count_unknown_zero v (phoneStep_noStatus c),
      count_unknown_zero v (websiteStep_noStatus env c),
      count_unknown_zero v (facebookStep_noStatus env c),
      count_unknown_zero v (forecastStep_noStatus c),
      count_unknown_zero v (closeDateStep_noStatus env c),
      count_unknown_zero v (createdAtStep_noStatus env c),
      count_unknown_zero v (interactionStep_noStatus c),
      count_unknown_zero v (idStep_noStatus c),
      count_unknown_zero v (ownerStep_noStatus env c),
      count_unknown_zero v (dupStep_noStatus env (nameStep c rn).1 (emailStep c).1)]

/-- C5 witness: the row with `contactStatus = "Interested"` downgrades
to `"Uncategorized"` with exactly the one warning and no error. -/
theorem validator_unknownStatusDowngrades_witness :
    (validateClientData envDemo interestedRow 3).data.contactStatus = "Uncategorized" ∧
    (validateClientData envDemo interestedRow 3).errors = [] ∧
    (validateClientData envDemo interestedRow 3).warnings.countP
      isUnknownStatusWarning = 1 ∧
    (validateClientData envDemo interestedRow 3).warnings.count
      (ClientWarning.unknownContactStatus "Interested") = 1 :=
  validator_unknownStatusDowngrades envDemo interestedRow 3 "Interested"
    rfl (by decide) (by decide)

theorem sanitizeRow_fields (u : String) (raw : Row) :
    (sanitizeRow u raw).fullName = (sanitizeBase raw).fullName ∧
    (sanitizeRow u raw).company = (sanitizeBase raw).company ∧
    (sanitizeRow u raw).firstName = (sanitizeBase raw).firstName ∧
    (sanitizeRow u raw).lastName = (sanitizeBase raw).lastName ∧
    (sanitizeRow u raw).email = (sanitizeBase raw).email ∧
    (sanitizeRow u raw).phone = (sanitizeBase raw).phone := by
  unfold sanitizeRow withOwnership withPlaceholder withDerivedName
  repeat' split
  all_goals exact ⟨rfl, rfl, rfl, rfl, rfl, rfl⟩

theorem data_ne_nil_of_ne {s : String} (h : s ≠ "") : s.data ≠ [] := by
  intro hc
  exact h (String.ext_iff.mpr (by simp [hc]))

theorem mkTake200_ne (l : List Char) (h : l ≠ []) : String.mk (l.take 200) ≠ "" := by
  intro hc
  rw [String.ext_iff] at hc
  rcases List.take_eq_nil_iff.mp hc with h200 | hl
  · exact absurd h200 (by decide)
  · exact h hl

theorem unnamed_ne (s : String) : ("Unnamed Client " ++ s) ≠ "" := by
  intro h
  have hd := congrArg String.data h
  rw [String.data_append] at hd
  simp at hd

theorem ne_empty_of_two_le {s : String} (h : 2 ≤ s.length) : s.data ≠ [] := by
  intro hc
  rw [show s.length = s.data.length from rfl, hc] at h
  simp at h

theorem nameStep_name_ne (c : ClientData) (rn : Nat) : (nameStep c rn).1 ≠ "" := by
  unfold nameStep
  split
  · dsimp only
    apply mkTake200_ne
    split_ifs with hf he hx
    · exact data_ne_nil_of_ne hf.2
    · exact data_ne_nil_of_ne he.2
    · exact data_ne_nil_of_ne hx.2
    · exact data_ne_nil_of_ne (unnamed_ne _)
  · next hcond =>
    have hlen : 2 ≤ (jsTrim (optStr c.name)).length := by
      simp only [Bool.or_eq_true, Bool.not_eq_eq_eq_not, Bool.not_true,
        decide_eq_true_eq, not_or, not_lt] at hcond
      exact hcond.2
    split
    · exact mkTake200_ne _ (ne_empty_of_two_le hlen)
    · intro hc
      have := ne_empty_of_two_le hlen
      exact this (by simpa [String.ext_iff] using hc)

theorem stepRow_counts (gen : Nat → String) (u : String) (sv : Bool)
    (st : BatchBuild) (raw : Row) :
    (stepRow gen u sv st raw).skipped = st.skipped ∧
    (stepRow gen u sv st raw).ops.length = st.ops.length + 1 := by
  unfold stepRow
  rw [if_neg (by simp [sanitizeRow_name_ne u raw])]
  split_ifs <;> simp

theorem buildFold_counts (gen : Nat → String) (u : String) (sv : Bool) :
    ∀ (rows : List Row) (st : BatchBuild),
      (rows.foldl (stepRow gen u sv) st).skipped = st.skipped ∧
      (rows.foldl (stepRow gen u sv) st).ops.length = st.ops.length + rows.length := by
  intro rows
  induction rows with
  | nil => intro st; simp
  | cons r rs ih =>
    intro st
    simp only [List.foldl_cons, List.length_cons]
    obtain ⟨h1, h2⟩ := ih (stepRow gen u sv st r)
    obtain ⟨h3, h4⟩ := stepRow_counts gen u sv st r
    exact ⟨by rw [h1, h3], by rw [h2, h4]; omega⟩

/-- C2: when the name column is blank, `sanitizeRow` derives the
persisted name through the chain `fullName`, company alias,
`firstName + " " + lastName` (trimmed), `email`, `phone`, then the
literal `"Unnamed Client"`; consequently every sanitized row has a
non-empty name, the batch builder skips nothing and emits one op per
row, and the CSV validator also always yields a non-empty name. -/
theorem importName_fallbackChain (userId : String) (raw : Row) (gen : Nat → String)
    (skipValidation : Bool) (rows : List Row) (env : ValidationEnv) (c : ClientData)
    (rn : Nat) :
    (sField raw ["name", "clientname", "customername"] = "" →
      (sanitizeRow userId raw).name =
        (if (sanitizeRow userId raw).fullName ≠ "" then (sanitizeRow userId raw).fullName
         else if (sanitizeRow userId raw).company ≠ "" then (sanitizeRow userId raw).company
         else if joinFirstLast (sanitizeRow userId raw).firstName
             (sanitizeRow userId raw).lastName ≠ "" then
           joinFirstLast (sanitizeRow userId raw).firstName (sanitizeRow userId raw).lastName
         else if (sanitizeRow userId raw).email ≠ "" then (sanitizeRow userId raw).email
         else if (sanitizeRow userId raw).phone ≠ "" then (sanitizeRow userId raw).phone
         else "Unnamed Client")) ∧
    (sanitizeRow userId raw).name ≠ "" ∧
    (buildBatchOps gen userId skipValidation rows).skipped = 0 ∧
    (buildBatchOps gen userId skipValidation rows).ops.length = rows.length ∧
    (validateClientData env c rn).data.name ≠ "" := by
  refine ⟨?_, sanitizeRow_name_ne userId raw, ?_, ?_, nameStep_name_ne c rn⟩
  · intro h
    have hb : (sanitizeBase raw).name = "" := h
    obtain ⟨hf, hc, hfn, hln, he, hp⟩ := sanitizeRow_fields userId raw
    rw [hf, hc, hfn, hln, he, hp]
    show (withOwnership userId (withPlaceholder (withDerivedName (sanitizeBase raw)))).name = _
    rw [withOwnership_name]
    unfold withDerivedName
    rw [if_pos hb]
    unfold withPlaceholder deriveNameChain
    by_cases h1 : (sanitizeBase raw).fullName = "" <;>
      by_cases h2 : (sanitizeBase raw).company = "" <;>
      by_cases h3 : joinFirstLast (sanitizeBase raw).firstName (sanitizeBase raw).lastName = "" <;>
      by_cases h4 : (sanitizeBase raw).email = "" <;>
      by_cases h5 : (sanitizeBase raw).phone = "" <;>
      simp [h1, h2, h3, h4, h5]
  · exact (buildFold_counts gen userId skipValidation rows ⟨[], 0, 0, 0⟩).1
  · have := (buildFold_counts gen userId skipValidation rows ⟨[], 0, 0, 0⟩).2
    simpa using this

/-- C2 witness: a row with only first and last name columns gets the
joined name; an empty row gets the placeholder; an identifierless
one-row import emits one op and skips nothing; the empty validator
draft is named by the fallback. -/
theorem importName_fallbackChain_witness :
    sField [(("firstName" : String), ("Ada" : String)), (("lastName" : String), ("Lovelace" : String))]
        ["name", "clientname", "customername"] = "" ∧
    (sanitizeRow "u" [(("firstName" : String), ("Ada" : String)), (("lastName" : String), ("Lovelace" : String))]).name =
      "Ada Lovelace" ∧
    (buildBatchOps genDemo "u" true [noIdRow]).skipped = 0 ∧
    (buildBatchOps genDemo "u" true [noIdRow]).ops.length = 1 := by
  have h := importName_fallbackChain "u"
    [(("firstName" : String), ("Ada" : String)), (("lastName" : String), ("Lovelace" : String))]
    genDemo true [noIdRow] envDemo {} 7
  refine ⟨rfl, ?_, h.2.2.1, by simpa using h.2.2.2.1⟩
  rw [h.1 rfl]
  decide

theorem upsertInto_fresh (g : String) (d : SanitizedRow) (soi : Option String) :
    ∀ db : List SanitizedRow, (∀ x ∈ db, x.idStr ≠ g) →
      upsertInto ⟨BFilter.byId g, d, soi⟩ db = (db ++ [{ d with idStr := g }], false, true) := by
  intro db
  induction db with
  | nil => intro _; rfl
  | cons x xs ih =>
    intro hfresh
    unfold upsertInto
    rw [if_neg (by simp [filterMatches, hfresh x (List.mem_cons_self x xs)])]
    rw [ih (fun y hy => hfresh y (List.mem_cons_of_mem _ hy))]
    rfl

/-- C3 counterexample: for a validated CSV draft with neither id nor
email, the pipeline emits a plain `insertOne` whose document carries
**no** id (none is generated or assigned — the store assigns one), and
in the JSON batch path the identifierless row is written as an
`updateOne` upsert filtered on the generated id, not as a plain
insert op. -/
theorem identifierless_plainInsert_counterexample :
    buildCsvOp noIdData 100 = .insertOne (stripExcluded noIdData) 100 100 ∧
    (stripExcluded noIdData).idStr = none ∧
    (buildBatchOps genDemo "u" true [noIdRow]).ops =
      [⟨BFilter.byId (genDemo 0), { sanitizeRow "u" noIdRow with idStr := genDemo 0 },
        some (genDemo 0)⟩] :=
  ⟨rfl, rfl, rfl⟩

/-- C3 (amended): identity resolution precedence — an explicit id
yields an upsert filtered on the id, else an email yields an upsert
filtered on the email; an identifierless draft is written in the JSON
batch path as an upsert on a freshly generated id assigned to the
draft (which can only insert when the id matches no stored record)
and in the CSV path as a plain `insertOne` with no id assigned (the
store assigns one); either way an identifierless row never updates an
existing record. -/
theorem identityResolution_precedence (userId : String) (gen : Nat → String)
    (raw : Row) (st : BatchBuild) (data : ValidatedData) (now : Nat) :
    ((sanitizeRow userId raw).idStr ≠ "" →
      (stepRow gen userId true st raw).ops =
        st.ops ++ [⟨BFilter.byId (sanitizeRow userId raw).idStr, sanitizeRow userId raw, none⟩]) ∧
    ((sanitizeRow userId raw).idStr = "" → (sanitizeRow userId raw).email ≠ "" →
      (stepRow gen userId true st raw).ops =
        st.ops ++ [⟨BFilter.byEmail (sanitizeRow userId raw).email, sanitizeRow userId raw, none⟩]) ∧
    ((sanitizeRow userId raw).idStr = "" → (sanitizeRow userId raw).email = "" →
      (stepRow gen userId true st raw).ops =
        st.ops ++ [⟨BFilter.byId (gen st.nextGen),
          { sanitizeRow userId raw with idStr := gen st.nextGen }, some (gen st.nextGen)⟩]) ∧
    (∀ (g : String) (db : BatchDB) (cnt : BulkCounts) (d : SanitizedRow) (soi : Option String),
      (∀ x ∈ db, x.idStr ≠ g) →
      applyBatchOp (db, cnt) ⟨BFilter.byId g, d, soi⟩ =
        (db ++ [{ d with idStr := g }],
         ⟨cnt.modifiedCount, cnt.upsertedCount + 1⟩)) ∧
    (truthy data.idStr = true →
      buildCsvOp data now = .updateOne (.byId (optStr data.idStr)) (stripExcluded data)
        (match data.createdAt with | some t => t | none => now) now) ∧
    (truthy data.idStr = false → truthy data.email = true →
      buildCsvOp data now = .updateOne (.byEmail (optStr data.email)) (stripExcluded data)
        (match data.createdAt with | some t => t | none => now) now) ∧
    (truthy data.idStr = false → truthy data.email = false →
      buildCsvOp data now = .insertOne (stripExcluded data)
        (match data.createdAt with | some t => t | none => now) now) ∧
    (∀ (g : String) (db : List StoredClient) (doc : ValidatedData) (ca ua : Nat),
      applyCsvOp g db (.insertOne doc ca ua) =
        db ++ [{ idStr := g, doc := doc, createdAt := ca, updatedAt := ua }]) := by
  refine ⟨?_, ?_, ?_, ?_, ?_, ?_, ?_, ?_⟩
  · intro hid
    unfold stepRow
    rw [if_neg (by simp [sanitizeRow_name_ne userId raw])]
    rw [if_pos hid]
  · intro hid hem
    unfold stepRow
    rw [if_neg (by simp [sanitizeRow_name_ne userId raw])]
    rw [if_neg (by simp [hid]), if_pos hem]
  · intro hid hem
    unfold stepRow
    rw [if_neg (by simp [sanitizeRow_name_ne userId raw])]
    rw [if_neg (by simp [hid]), if_neg (by simp [hem])]
  · intro g db cnt d soi hfresh
    have hu := upsertInto_fresh g d soi db hfresh
    simp [applyBatchOp, hu]
  · intro h1
    simp [buildCsvOp, h1]
  · intro h1 h2
    simp [buildCsvOp, h1, h2]
  · intro h1 h2
    simp [buildCsvOp, h1, h2]
  · intro g db doc ca ua
    rfl

/-- C3 witness: the identifierless row gets a fresh-id upsert in the
batch path and a plain insert in the CSV path. -/
theorem identityResolution_precedence_witness :
    (stepRow genDemo "u" true ⟨[], 0, 0, 0⟩ noIdRow).ops =
      ([] : List BatchOp) ++ [⟨BFilter.byId (genDemo 0),
        { sanitizeRow "u" noIdRow with idStr := genDemo 0 }, some (genDemo 0)⟩] ∧
    buildCsvOp noIdData 100 = .insertOne (stripExcluded noIdData)
      (match noIdData.createdAt with | some t => t | none => 100) 100 :=
  ⟨(identityResolution_precedence "u" genDemo noIdRow ⟨[], 0, 0, 0⟩ noIdData 100).2.2.1
      (by decide) (by decide),
   (identityResolution_precedence "u" genDemo noIdRow ⟨[], 0, 0, 0⟩ noIdData
      100).2.2.2.2.2.2.1 (by decide) (by decide)⟩

/-- C4: in the CSV import's upsert ops, `createdAt` flows only through
the insert-only `$setOnInsert` clause (the `$set` payload carries
none), set to the parsed import hint when present else the operation
instant; a matched update keeps the stored `createdAt` and stamps
`updatedAt` with the operation instant; an upsert-insert and a plain
insert stamp `createdAt` from the hint-or-now and `updatedAt` with
now. -/
theorem importTimestamps_insertOnlyCreatedAt (data : ValidatedData) (now : Nat)
    (genId : String) (f : BFilter) (s : ValidatedData) (coi ts : Nat) :
    (buildCsvOp data now = .updateOne f s coi ts →
      coi = (match data.createdAt with | some t => t | none => now) ∧
      ts = now ∧ s.createdAt = none) ∧
    (∀ d ds, csvMatches f d = true →
      csvUpsertInto genId f s coi ts (d :: ds) =
        { idStr := d.idStr, doc := s, createdAt := d.createdAt, updatedAt := ts } :: ds) ∧
    (∀ db : List StoredClient, (∀ d ∈ db, csvMatches f d = false) →
      csvUpsertInto genId f s coi ts db =
        db ++ [{ idStr := (match f with | .byId i => i | .byEmail _ => genId),
                 doc := s, createdAt := coi, updatedAt := ts }]) ∧
    (∀ doc ca ua, buildCsvOp data now = .insertOne doc ca ua →
      ca = (match data.createdAt with | some t => t | none => now) ∧ ua = now) := by
  refine ⟨?_, ?_, ?_, ?_⟩
  · intro h
    unfold buildCsvOp at h
    split_ifs at h <;> injection h with h1 h2 h3 h4
    · subst h2; subst h3; subst h4
      exact ⟨rfl, rfl, rfl⟩
    · subst h2; subst h3; subst h4
      exact ⟨rfl, rfl, rfl⟩
  · intro d ds hm
    unfold csvUpsertInto
    rw [if_pos hm]
  · intro db
    induction db with
    | nil => intro _; rfl
    | cons d ds ih =>
      intro hall
      unfold csvUpsertInto
      rw [if_neg (by simp [hall d (List.mem_cons_self d ds)])]
      rw [ih (fun x hx => hall x (List.mem_cons_of_mem _ hx))]
      rfl
  · intro doc ca ua h
    unfold buildCsvOp at h
    split_ifs at h
    injection h with h1 h2 h3
    subst h2; subst h3
    exact ⟨rfl, rfl⟩

/-- C4 witness: the email-matched update of a hinted draft keeps the
stored `createdAt` (7) and stamps `updatedAt` with the operation
instant (100); the insert-only `createdAt` honours the hint (55). -/
theorem importTimestamps_insertOnlyCreatedAt_witness :
    ((55 : Nat) = (match hintedData.createdAt with | some t => t | none => 100) ∧
      (100 : Nat) = 100 ∧ (stripExcluded hintedData).createdAt = none) ∧
    csvUpsertInto "g" (.byEmail "hint@x.com") (stripExcluded hintedData) 55 100
        [oldStored] =
      [{ idStr := oldStored.idStr, doc := stripExcluded hintedData,
         createdAt := oldStored.createdAt, updatedAt := 100 }] :=
  ⟨(importTimestamps_insertOnlyCreatedAt hintedData 100 "g" (.byEmail "hint@x.com")
      (stripExcluded hintedData) 55 100).1 rfl,
   (importTimestamps_insertOnlyCreatedAt hintedData 100 "g" (.byEmail "hint@x.com")
      (stripExcluded hintedData) 55 100).2.1 oldStored [] (by decide)⟩

/-- C1 (claim violated, code evaluated at the failing input): a row
carrying `ccNumber`/`cvv` columns is sanitized with the full raw card
number in `ccNumberText` and the CVV in `securityCodeText`, the
batch import persists exactly those values into the stored record,
and the CSV validator passes both plain-text fields through to the
persisted data. -/
theorem importPersistsRawCardAndCvv :
    (sanitizeRow "importer" rawCardRow).ccNumberText = "4242424242424242" ∧
    (sanitizeRow "importer" rawCardRow).securityCodeText = "123" ∧
    (importClientsBatch genDemo "importer" true "" [rawCardRow] []).2.map
        (fun d => (d.ccNumberText, d.securityCodeText)) =
      [("4242424242424242", "123")] ∧
    (validateClientData envDemo rawCardData 1).data.ccNumberText =
      some "4242424242424242" ∧
    (validateClientData envDemo rawCardData 1).data.securityCodeText = some "123" := by
  refine ⟨rfl, rfl, ?_, rfl, rfl⟩
  simp only [importClientsBatch, execChunks_foldl]
  rfl

end RebelX
